import Mathlib

/-!
Verification of the batched-transaction benchmark system: a shallow embedding
of the account-storage contract (in-memory adapter, `storage/memory.go`), the
application state (`types/state.go`, `app/state_store.go`) and the batch
transfer processor (`app/transaction.go`, `types/transaction.go`), together
with theorems settling the specification's claims about them.

Go maps are embedded as functions `Int → Option Account`; Go's pointer-typed
`*types.Account` values are embedded by value, with every in-place mutation
through a pointer rendered as an update of the map slot the pointer aliases
(within a single storage instance no other alias survives across calls, so
this is observationally faithful for sequences of contract calls). Go `error`
results are `Except` values; methods that mutate their receiver return the
updated state alongside the result. ed25519 signature verification is an
external capability and is passed in as an oracle parameter.
-/

namespace BatchBench

/-- Embeds `types.Account`: a user account with an integer balance. -/
structure Account where
  id : Int
  balance : Int
deriving Repr, DecidableEq

/-- A Go `map[int]*types.Account`, embedded as a function to `Option Account`. -/
def AccountMap : Type := Int → Option Account

/-- The empty account map (`make(map[int]*types.Account)`). -/
def AccountMap.empty : AccountMap := fun _ => none

/-- Map update `m[id] = acc`. -/
def AccountMap.set (m : AccountMap) (id : Int) (acc : Account) : AccountMap :=
  fun i => if i = id then some acc else m i

/-- The result of Go's `for id, acc := range overlay { base[id] = acc }`:
overlay entries win over base entries. -/
def AccountMap.merge (base overlay : AccountMap) : AccountMap :=
  fun i =>
    match overlay i with
    | some acc => some acc
    | none => base i

/-- Every account stored in the map has a non-negative balance. -/
def AccountMap.NonNeg (m : AccountMap) : Prop :=
  ∀ id acc, m id = some acc → 0 ≤ acc.balance

namespace Storage

/-- Embeds the error values of `storage/errors.go` that the in-memory adapter
can surface. -/
inductive StorageError where
  | accountNotFound
  | insufficientBalance
  | accountAlreadyExists
  | notInitialized
  | alreadyInitialized
deriving Repr, DecidableEq

/-- Embeds `storage.MemoryStorage`: the base account map, the lifecycle flag,
the open-transaction flag and the transaction overlay map (`txAccounts`). The
`sync.RWMutex` only serializes calls and has no sequential content. -/
structure MemoryStorage where
  accounts : AccountMap
  initialized : Bool
  inTx : Bool
  txAccounts : AccountMap

/-- Embeds `NewMemoryStorage`: fresh maps, not yet initialized. -/
def newMemoryStorage : MemoryStorage :=
  { accounts := AccountMap.empty
    initialized := false
    inTx := false
    txAccounts := AccountMap.empty }

/-- Embeds `MemoryStorage.Initialize` (named `initStore` here because Lean
reserves the source's name): fails when already initialized, otherwise resets
both maps and sets the flag. -/
def MemoryStorage.initStore (s : MemoryStorage) : Except StorageError Unit × MemoryStorage :=
  if s.initialized then (.error .alreadyInitialized, s)
  else (.ok (), { s with accounts := AccountMap.empty, txAccounts := AccountMap.empty,
                         initialized := true })

/-- Embeds `MemoryStorage.Close`: fails when not initialized, otherwise drops
both maps (Go sets them to nil) and clears the flag; `inTx` is not touched. -/
def MemoryStorage.closeStore (s : MemoryStorage) : Except StorageError Unit × MemoryStorage :=
  if !s.initialized then (.error .notInitialized, s)
  else (.ok (), { s with accounts := AccountMap.empty, txAccounts := AccountMap.empty,
                         initialized := false })

/-- Embeds `MemoryStorage.GetAccount`: overlay-aware read; when a transaction
is open and the account lives only in the base, a copy is staged into the
overlay (copy-on-first-access) and returned. -/
def MemoryStorage.getAccount (s : MemoryStorage) (id : Int) :
    Except StorageError Account × MemoryStorage :=
  if !s.initialized then (.error .notInitialized, s)
  else if s.inTx then
    match s.txAccounts id with
    | some acc => (.ok acc, s)
    | none =>
      match s.accounts id with
      | some acc =>
        let accCopy : Account := { id := acc.id, balance := acc.balance }
        (.ok accCopy, { s with txAccounts := s.txAccounts.set id accCopy })
      | none => (.error .accountNotFound, s)
  else
    match s.accounts id with
    | some acc => (.ok acc, s)
    | none => (.error .accountNotFound, s)

/-- Embeds `MemoryStorage.AccountExists`: overlay-aware existence check,
never mutates. -/
def MemoryStorage.accountExists (s : MemoryStorage) (id : Int) :
    Except StorageError Bool × MemoryStorage :=
  if !s.initialized then (.error .notInitialized, s)
  else if s.inTx && (s.txAccounts id).isSome then (.ok true, s)
  else (.ok (s.accounts id).isSome, s)

/-- Embeds `MemoryStorage.CreateAccount`, faithfully including the source's
existence check: the overlay is consulted only when a transaction is open, and
the base map is consulted only when no transaction is open (`exists && !s.inTx`). -/
def MemoryStorage.createAccount (s : MemoryStorage) (id initialBalance : Int) :
    Except StorageError Unit × MemoryStorage :=
  if !s.initialized then (.error .notInitialized, s)
  else if s.inTx && (s.txAccounts id).isSome then (.error .accountAlreadyExists, s)
  else if (s.accounts id).isSome && !s.inTx then (.error .accountAlreadyExists, s)
  else
    let acc : Account := { id := id, balance := initialBalance }
    if s.inTx then (.ok (), { s with txAccounts := s.txAccounts.set id acc })
    else (.ok (), { s with accounts := s.accounts.set id acc })

/-- Embeds `MemoryStorage.UpdateBalance`: reads through `GetAccount`; a missing
account with a positive delta is created with the delta as balance
(auto-vivification); a result below zero fails with `InsufficientBalance`;
otherwise the balance is written through the pointer `GetAccount` returned,
which aliases the overlay slot when a transaction is open and the base slot
otherwise. -/
def MemoryStorage.updateBalance (s : MemoryStorage) (id delta : Int) :
    Except StorageError Unit × MemoryStorage :=
  if !s.initialized then (.error .notInitialized, s)
  else
    match s.getAccount id with
    | (.error e, s') =>
      if e = .accountNotFound ∧ delta > 0 then s'.createAccount id delta
      else (.error e, s')
    | (.ok acc, s') =>
      let newBalance := acc.balance + delta
      if newBalance < 0 then (.error .insufficientBalance, s')
      else
        let acc' : Account := { id := acc.id, balance := newBalance }
        if s'.inTx then (.ok (), { s' with txAccounts := s'.txAccounts.set id acc' })
        else (.ok (), { s' with accounts := s'.accounts.set id acc' })

/-- Embeds `MemoryStorage.Commit`: a no-op success when no transaction is
open; otherwise folds every overlay entry into the base, clears the overlay
and closes the transaction. -/
def MemoryStorage.commit (s : MemoryStorage) : Except StorageError Unit × MemoryStorage :=
  if !s.initialized then (.error .notInitialized, s)
  else if !s.inTx then (.ok (), s)
  else (.ok (), { s with accounts := AccountMap.merge s.accounts s.txAccounts,
                         txAccounts := AccountMap.empty, inTx := false })

/-- Embeds `MemoryStorage.Rollback`: a no-op success when no transaction is
open; otherwise discards the overlay and closes the transaction. -/
def MemoryStorage.rollback (s : MemoryStorage) : Except StorageError Unit × MemoryStorage :=
  if !s.initialized then (.error .notInitialized, s)
  else if !s.inTx then (.ok (), s)
  else (.ok (), { s with txAccounts := AccountMap.empty, inTx := false })

/-- Embeds `MemoryStorage.BeginTransaction`: when a transaction is already
open its overlay is first folded into the base (an implicit commit); then a
fresh empty overlay is opened. -/
def MemoryStorage.beginTransaction (s : MemoryStorage) :
    Except StorageError Unit × MemoryStorage :=
  if !s.initialized then (.error .notInitialized, s)
  else
    let base := if s.inTx then AccountMap.merge s.accounts s.txAccounts else s.accounts
    (.ok (), { s with accounts := base, txAccounts := AccountMap.empty, inTx := true })

/-- Embeds `MemoryStorage.GetBalance`: `GetAccount` followed by reading the
balance field (so it inherits the copy-on-first-access state effect). -/
def MemoryStorage.getBalance (s : MemoryStorage) (id : Int) :
    Except StorageError Int × MemoryStorage :=
  match s.getAccount id with
  | (.error e, s') => (.error e, s')
  | (.ok acc, s') => (.ok acc.balance, s')

/-- Embeds `MemoryStorage.GetAllAccounts` as the merged account map it
enumerates: in a transaction, base entries are copied and overlay entries win;
otherwise the base itself. Go returns the entries as a slice in
nondeterministic map order; the map of entries is the order-free content. -/
def MemoryStorage.getAllAccounts (s : MemoryStorage) :
    Except StorageError (Int → Option Account) × MemoryStorage :=
  if !s.initialized then (.error .notInitialized, s)
  else if s.inTx then (.ok (AccountMap.merge s.accounts s.txAccounts), s)
  else (.ok s.accounts, s)

/-- The overlay-aware view of the store: what `GetAccount` would return for
each id (ignoring its copy-on-read effect), and what `GetAllAccounts`
enumerates. -/
def MemoryStorage.view (s : MemoryStorage) (id : Int) : Option Account :=
  if s.inTx then
    match s.txAccounts id with
    | some acc => some acc
    | none => s.accounts id
  else s.accounts id

/-- One call of the public Account Store Contract, with its arguments. -/
inductive StoreOp where
  | initStore
  | closeStore
  | getAccount (id : Int)
  | accountExists (id : Int)
  | updateBalance (id delta : Int)
  | createAccount (id initialBalance : Int)
  | commit
  | rollback
  | beginTransaction
  | getBalance (id : Int)
  | getAllAccounts
deriving Repr, DecidableEq

/-- Run one contract call for its state effect, discarding the result. -/
def MemoryStorage.applyOp (s : MemoryStorage) : StoreOp → MemoryStorage
  | .initStore => (s.initStore).2
  | .closeStore => (s.closeStore).2
  | .getAccount id => (s.getAccount id).2
  | .accountExists id => (s.accountExists id).2
  | .updateBalance id delta => (s.updateBalance id delta).2
  | .createAccount id ib => (s.createAccount id ib).2
  | .commit => (s.commit).2
  | .rollback => (s.rollback).2
  | .beginTransaction => (s.beginTransaction).2
  | .getBalance id => (s.getBalance id).2
  | .getAllAccounts => (s.getAllAccounts).2

/-- Run a sequence of contract calls in order. -/
def MemoryStorage.applyOps (s : MemoryStorage) : List StoreOp → MemoryStorage
  | [] => s
  | op :: rest => (s.applyOp op).applyOps rest

/-- A fresh store right after `Initialize`: the start state of the contract's
operation sequences. -/
def MemoryStorage.initialEmpty : MemoryStorage := ( newMemoryStorage.initStore).2

/-- Whether a contract call is one of the two mutators named by the rollback
property (`UpdateBalance` or `CreateAccount`). -/
def StoreOp.isWrite : StoreOp → Bool
  | .updateBalance _ _ => true
  | .createAccount _ _ => true
  | _ => false

/-- Whether a contract call avoids negative seeding: `CreateAccount` with a
non-negative initial balance, or any other call. -/
def StoreOp.createNonNeg : StoreOp → Bool
  | .createAccount _ ib => decide (0 ≤ ib)
  | _ => true

/-- Every account in the base map and in the overlay has a non-negative
balance. -/
def MemoryStorage.NonNeg (s : MemoryStorage) : Prop :=
  s.accounts.NonNeg ∧ s.txAccounts.NonNeg

end Storage

/-- Embeds the `error` values produced by the app-layer transaction code
(`types/transaction.go`, `types/state.go`, `app/transaction.go`), with Go's
`fmt.Errorf` wrapping rendered structurally. -/
inductive AppErr where
  | emptyTransaction
  | invalidSender (id : Int)
  | invalidRecipient (id : Int)
  | invalidAmount (amount : Int)
  | missingSignature
  | noPublicKey (userId : Int)
  | signingDataFailed (msg : String)
  | sigVerifyFailed (msg : String)
  | invalidSignature
  | insufficientBalance (balance amount : Int)
  | stateInsufficientBalance (id balance needed : Int)
  | operationFailed (i : Nat) (e : AppErr)
  | debitFailed (i : Nat) (e : AppErr)
  | creditFailed (i : Nat) (e : AppErr)
deriving Repr, DecidableEq

namespace Types

/-- Embeds `types.Operation`: one signed transfer intent. `From`/`To` are
rendered `fromId`/`toId` (`from` is reserved in Lean). -/
structure Operation where
  fromId : Int
  toId : Int
  amount : Int
  signature : String
deriving Repr, DecidableEq

/-- Embeds `types.Transaction`: an ordered batch of operations. -/
structure Transaction where
  operations : List Operation
deriving Repr, DecidableEq

/-- Embeds `Operation.GetDataForSigning` abstractly: the canonical signed
content is the `(from, to, amount)` triple, excluding the signature field. -/
def Operation.getDataForSigning (op : Operation) : Int × Int × Int :=
  (op.fromId, op.toId, op.amount)

/-- The per-operation loop body of `Transaction.Validate`, carrying the
operation index used in the error messages. -/
def validateOpsFrom (i : Nat) : List Operation → Except AppErr Unit
  | [] => .ok ()
  | op :: rest =>
    if op.fromId ≤ 0 then .error (.operationFailed i (.invalidSender op.fromId))
    else if op.toId ≤ 0 then .error (.operationFailed i (.invalidRecipient op.toId))
    else if op.amount ≤ 0 then .error (.operationFailed i (.invalidAmount op.amount))
    else if op.signature = "" then .error (.operationFailed i .missingSignature)
    else validateOpsFrom (i + 1) rest

/-- Embeds `Transaction.Validate`: an empty batch is rejected with
"transaction must contain at least one operation"; otherwise each operation's
sender, recipient, amount and signature presence are checked in order. -/
def Transaction.validate (tx : Transaction) : Except AppErr Unit :=
  if tx.operations.isEmpty then .error .emptyTransaction
  else validateOpsFrom 0 tx.operations

/-- Embeds the package-level `types.ValidateOperation`: the same per-operation
checks without an index. -/
def validateOperation (op : Operation) : Except AppErr Unit :=
  if op.fromId ≤ 0 then .error (.invalidSender op.fromId)
  else if op.toId ≤ 0 then .error (.invalidRecipient op.toId)
  else if op.amount ≤ 0 then .error (.invalidAmount op.amount)
  else if op.signature = "" then .error .missingSignature
  else .ok ()

end Types

namespace App

/-- Embeds `types.State`: the application's account map. The mutex is only a
serialization device. -/
structure State where
  accounts : AccountMap

/-- Embeds `State.GetAccount`: returns the account, creating it with zero
balance when absent — a read that mutates the state. -/
def State.getAccount (s : State) (id : Int) : Account × State :=
  match s.accounts id with
  | some acc => (acc, s)
  | none =>
    let acc : Account := { id := id, balance := 0 }
    (acc, { accounts := s.accounts.set id acc })

/-- Embeds `State.UpdateBalance`: a missing account is first created with zero
balance (even when the call then fails); a result below zero is rejected with
"insufficient balance for account id: balance < -delta"; otherwise the new
balance is stored. -/
def State.updateBalance (s : State) (id delta : Int) : Except AppErr Unit × State :=
  let acc := (s.accounts id).getD { id := id, balance := 0 }
  let s₁ : State :=
    match s.accounts id with
    | some _ => s
    | none => { accounts := s.accounts.set id acc }
  let newBalance := acc.balance + delta
  if newBalance < 0 then (.error (.stateInsufficientBalance id acc.balance (-delta)), s₁)
  else (.ok (), { accounts := s₁.accounts.set id { acc with balance := newBalance } })

/-- An abstract ed25519 public key (opaque to this design). -/
def PubKey : Type := Nat
deriving instance DecidableEq for PubKey

/-- The external signature-verification capability
`crypto.VerifySignature(pubKey, message, signature) -> (bool, error)`,
abstracted as an oracle over the canonical signed triple. -/
def SigVerifier : Type := PubKey → (Int × Int × Int) → String → Except String Bool

/-- Embeds `app.TransactionProcessor` together with the `StateStore` it holds:
the mutable application state and the registered user public keys.
`StateStore`'s own methods only add locking and delegate to `types.State`. -/
structure TxProcessor where
  state : State
  userKeys : Int → Option PubKey

/-- Embeds `TransactionProcessor.ValidateOperation`: basic field checks, then
public-key lookup, then signature verification through the oracle, then the
committed-balance check — whose read of the sender account goes through
`State.GetAccount` and therefore creates the account when it is missing. -/
def TxProcessor.validateOperation (tp : TxProcessor) (verify : SigVerifier)
    (op : Types.Operation) : Except AppErr Unit × TxProcessor :=
  match Types.validateOperation op with
  | .error e => (.error e, tp)
  | .ok () =>
    match tp.userKeys op.fromId with
    | none => (.error (.noPublicKey op.fromId), tp)
    | some pk =>
      match verify pk op.getDataForSigning op.signature with
      | .error m => (.error (.sigVerifyFailed m), tp)
      | .ok false => (.error .invalidSignature, tp)
      | .ok true =>
        let (account, s₁) := tp.state.getAccount op.fromId
        if account.balance < op.amount then
          (.error (.insufficientBalance account.balance op.amount), { tp with state := s₁ })
        else (.ok (), { tp with state := s₁ })

/-- The loop of `TransactionProcessor.ValidateTransaction`: validates each
operation in order, wrapping the first failure as "operation i: err". -/
def validateOpsLoop (verify : SigVerifier) (tp : TxProcessor) (i : Nat) :
    List Types.Operation → Except AppErr Unit × TxProcessor
  | [] => (.ok (), tp)
  | op :: rest =>
    match (tp.validateOperation verify op).1 with
    | .error e => (.error (.operationFailed i e), (tp.validateOperation verify op).2)
    | .ok _ => validateOpsLoop verify (tp.validateOperation verify op).2 (i + 1) rest

/-- Embeds `TransactionProcessor.ValidateTransaction`: `Transaction.Validate`
first, then each operation through `ValidateOperation`. -/
def TxProcessor.validateTransaction (tp : TxProcessor) (verify : SigVerifier)
    (tx : Types.Transaction) : Except AppErr Unit × TxProcessor :=
  match tx.validate with
  | .error e => (.error e, tp)
  | .ok () => validateOpsLoop verify tp 0 tx.operations

/-- The application loop of `TransactionProcessor.ProcessTransaction`: for
each operation, debit the sender; if crediting the recipient fails, re-credit
the sender (the failing operation's own debit only) and stop; earlier
operations of the batch are not reverted. -/
def processOpsLoop (tp : TxProcessor) (i : Nat) :
    List Types.Operation → Except AppErr Unit × TxProcessor
  | [] => (.ok (), tp)
  | op :: rest =>
    match tp.state.updateBalance op.fromId (-op.amount) with
    | (.error e, s₁) => (.error (.debitFailed i e), { tp with state := s₁ })
    | (.ok (), s₁) =>
      match s₁.updateBalance op.toId op.amount with
      | (.error e, s₂) =>
        let (_, s₃) := s₂.updateBalance op.fromId op.amount
        (.error (.creditFailed i e), { tp with state := s₃ })
      | (.ok (), s₂) => processOpsLoop { tp with state := s₂ } (i + 1) rest

/-- Embeds `TransactionProcessor.ProcessTransaction`: validate the whole
batch, then apply the operations in order through `State.UpdateBalance`,
stopping at the first failure. -/
def TxProcessor.processTransaction (tp : TxProcessor) (verify : SigVerifier)
    (tx : Types.Transaction) : Except AppErr Unit × TxProcessor :=
  match tp.validateTransaction verify tx with
  | (.error e, tp') => (.error e, tp')
  | (.ok (), tp') => processOpsLoop tp' 0 tx.operations

/-- The signature oracle that accepts everything: the instantiation used for
concrete scenarios in which every operation is validly signed. -/
def acceptAllSigs : SigVerifier := fun _ _ _ => .ok true

/-- The spec's rejection scenario start state: account 1 with balance 100, a
registered key for user 1. -/
def scenarioProcessor : TxProcessor :=
  { state := { accounts := AccountMap.set AccountMap.empty 1 { id := 1, balance := 100 } },
    userKeys := fun i => if i = 1 then some (0 : Nat) else none }

/-- The spec's rejection scenario batch: [(1→2, 60), (1→2, 60)]. -/
def scenarioBatch : Types.Transaction :=
  { operations := [{ fromId := 1, toId := 2, amount := 60, signature := "s0" },
                   { fromId := 1, toId := 2, amount := 60, signature := "s1" }] }

/-- A processor whose state has no account at all, with a key registered for
user 1: the start state showing validation's create-on-read effect. -/
def emptyStateProcessor : TxProcessor :=
  { state := { accounts := AccountMap.empty },
    userKeys := fun i => if i = 1 then some (0 : Nat) else none }

end App

namespace Storage

/-- An initialized store holding account 1 (balance 100) in the base, with a
transaction just opened and an empty overlay. -/
def baseOnlyTxStore : MemoryStorage :=
  (((MemoryStorage.initialEmpty.createAccount 1 100).2).beginTransaction).2

/-- An initialized store with a transaction open whose overlay stages account
1 (balance 5) while the base is still empty. -/
def overlayOpenStore : MemoryStorage :=
  (((MemoryStorage.initialEmpty.beginTransaction).2).createAccount 1 5).2

end Storage

namespace Storage

/-- C7: on an initialized store with no open transaction, `Commit` twice in a
row and `Rollback` twice in a row each succeed and return the store entirely
unchanged (base, overlay and transaction flag). -/
theorem commit_rollback_idempotent_no_tx (s : MemoryStorage)
    (hinit : s.initialized = true) (htx : s.inTx = false) :
    s.commit = (.ok (), s) ∧ (s.commit).2.commit = (.ok (), s) ∧
    s.rollback = (.ok (), s) ∧ (s.rollback).2.rollback = (.ok (), s) := by
  simp [MemoryStorage.commit, MemoryStorage.rollback, hinit, htx]

/-- Witness for C7 at the freshly initialized empty store. -/
theorem commit_rollback_idempotent_no_tx_witness :
    MemoryStorage.initialEmpty.initialized = true ∧
    MemoryStorage.initialEmpty.inTx = false ∧
    (MemoryStorage.initialEmpty.commit = (.ok (), MemoryStorage.initialEmpty) ∧
     (MemoryStorage.initialEmpty.commit).2.commit = (.ok (), MemoryStorage.initialEmpty) ∧
     MemoryStorage.initialEmpty.rollback = (.ok (), MemoryStorage.initialEmpty) ∧
     (MemoryStorage.initialEmpty.rollback).2.rollback = (.ok (), MemoryStorage.initialEmpty)) :=
  ⟨rfl, rfl, commit_rollback_idempotent_no_tx MemoryStorage.initialEmpty rfl rfl⟩

/-- C6: on an initialized store with a transaction already open,
`BeginTransaction` succeeds, folds every overlay entry into the base (overlay
values win), and opens a fresh empty overlay. -/
theorem beginTransaction_in_tx_folds_overlay (s : MemoryStorage)
    (hinit : s.initialized = true) (htx : s.inTx = true) :
    (s.beginTransaction).1 = .ok () ∧
    (s.beginTransaction).2.inTx = true ∧
    (s.beginTransaction).2.initialized = true ∧
    (∀ id, (s.beginTransaction).2.txAccounts id = none) ∧
    (∀ id, (s.beginTransaction).2.accounts id =
      match s.txAccounts id with
      | some acc => some acc
      | none => s.accounts id) := by
  simp [MemoryStorage.beginTransaction, hinit, htx, AccountMap.empty, AccountMap.merge]

/-- Witness for C6 at a store whose open transaction stages account 1. -/
theorem beginTransaction_in_tx_folds_overlay_witness :
    overlayOpenStore.initialized = true ∧
    overlayOpenStore.inTx = true ∧
    ((overlayOpenStore.beginTransaction).1 = .ok () ∧
     (overlayOpenStore.beginTransaction).2.inTx = true ∧
     (overlayOpenStore.beginTransaction).2.initialized = true ∧
     (∀ id, (overlayOpenStore.beginTransaction).2.txAccounts id = none) ∧
     (∀ id, (overlayOpenStore.beginTransaction).2.accounts id =
       match overlayOpenStore.txAccounts id with
       | some acc => some acc
       | none => overlayOpenStore.accounts id)) :=
  ⟨rfl, rfl, beginTransaction_in_tx_folds_overlay overlayOpenStore rfl rfl⟩

/-- C8: on an initialized store with no account 5 in base or overlay,
`UpdateBalance(5, 30)` succeeds and creates account 5 with balance 30
(auto-vivification), and `UpdateBalance(5, -50)` afterwards fails with
`InsufficientBalance` leaving the observed balance at 30. -/
theorem updateBalance_autovivify_then_insufficient (s : MemoryStorage)
    (hinit : s.initialized = true) (hbase : s.accounts 5 = none)
    (hov : s.txAccounts 5 = none) :
    (s.updateBalance 5 30).1 = .ok () ∧
    (((s.updateBalance 5 30).2).getBalance 5).1 = .ok 30 ∧
    (((s.updateBalance 5 30).2).updateBalance 5 (-50)).1 = .error .insufficientBalance ∧
    (((((s.updateBalance 5 30).2).updateBalance 5 (-50)).2).getBalance 5).1 = .ok 30 := by
  cases htx : s.inTx <;>
    simp [MemoryStorage.updateBalance, MemoryStorage.getAccount, MemoryStorage.getBalance,
          MemoryStorage.createAccount, AccountMap.set, hinit, hbase, hov, htx]

/-- Witness for C8 at the freshly initialized empty store. -/
theorem updateBalance_autovivify_then_insufficient_witness :
    MemoryStorage.initialEmpty.initialized = true ∧
    MemoryStorage.initialEmpty.accounts 5 = none ∧
    MemoryStorage.initialEmpty.txAccounts 5 = none ∧
    ((MemoryStorage.initialEmpty.updateBalance 5 30).1 = .ok () ∧
     (((MemoryStorage.initialEmpty.updateBalance 5 30).2).getBalance 5).1 = .ok 30 ∧
     (((MemoryStorage.initialEmpty.updateBalance 5 30).2).updateBalance 5 (-50)).1 =
       .error .insufficientBalance ∧
     (((((MemoryStorage.initialEmpty.updateBalance 5 30).2).updateBalance 5 (-50)).2).getBalance 5).1 =
       .ok 30) :=
  ⟨rfl, rfl, rfl, updateBalance_autovivify_then_insufficient MemoryStorage.initialEmpty rfl rfl rfl⟩

/-- C9: on an initialized store, `UpdateBalance(id, delta)` with `delta ≤ 0`
on an id absent from the current view fails with `AccountNotFound` and leaves
the store exactly unchanged: auto-vivification happens only for strictly
positive deltas. -/
theorem updateBalance_absent_nonpositive_fails (s : MemoryStorage) (id delta : Int)
    (hinit : s.initialized = true) (hbase : s.accounts id = none)
    (hov : s.inTx = true → s.txAccounts id = none) (hdelta : delta ≤ 0) :
    s.updateBalance id delta = (.error .accountNotFound, s) := by
  have hpos : ¬(0 < delta) := not_lt.2 hdelta
  cases htx : s.inTx
  · simp [MemoryStorage.updateBalance, MemoryStorage.getAccount, hinit, hbase, htx, hpos]
  · simp [MemoryStorage.updateBalance, MemoryStorage.getAccount, hinit, hbase, htx,
          hov htx, hpos]

/-- Witness for C9 at the freshly initialized empty store with delta zero. -/
theorem updateBalance_absent_nonpositive_fails_witness :
    MemoryStorage.initialEmpty.initialized = true ∧
    MemoryStorage.initialEmpty.accounts 7 = none ∧
    (MemoryStorage.initialEmpty.inTx = true → MemoryStorage.initialEmpty.txAccounts 7 = none) ∧
    (0 : Int) ≤ 0 ∧
    MemoryStorage.initialEmpty.updateBalance 7 0 =
      (.error .accountNotFound, MemoryStorage.initialEmpty) :=
  ⟨rfl, rfl, by decide, by decide,
   updateBalance_absent_nonpositive_fails MemoryStorage.initialEmpty 7 0 rfl rfl
     (by decide) (by decide)⟩

/-- Counterexample to C3 as stated: `CreateAccount(1, -5)` is a public
contract call on the initialized empty store that succeeds, after which
`GetBalance(1)` observes the negative balance -5. -/
theorem createAccount_negative_seed_observable :
    (MemoryStorage.initialEmpty.createAccount 1 (-5)).1 = .ok () ∧
    (((MemoryStorage.initialEmpty.createAccount 1 (-5)).2).getBalance 1).1 = .ok (-5) ∧
    (-5 : Int) < 0 :=
  ⟨rfl, rfl, by decide⟩

/-- Counterexample to C4 as stated: account 1 is visible in the overlay-aware
view (it sits in the base while a transaction is open), yet `CreateAccount(1, 50)`
succeeds and stages a second account 1 in the overlay. -/
theorem createAccount_in_tx_ignores_base :
    baseOnlyTxStore.accounts 1 = some { id := 1, balance := 100 } ∧
    baseOnlyTxStore.inTx = true ∧
    baseOnlyTxStore.view 1 = some { id := 1, balance := 100 } ∧
    (baseOnlyTxStore.createAccount 1 50).1 = .ok () ∧
    (baseOnlyTxStore.createAccount 1 50).2.txAccounts 1 = some { id := 1, balance := 50 } :=
  ⟨rfl, rfl, rfl, rfl, rfl⟩

/-- Counterexample to C5 as stated: on an initialized store whose open
transaction stages account 1, calling `BeginTransaction` (then no write, then
`Rollback`) leaves the base holding account 1, not its pre-`BeginTransaction`
value (absent): the implicit fold of the prior overlay mutates the base. -/
theorem rollback_after_second_begin_changes_base :
    overlayOpenStore.accounts 1 = none ∧
    ((((overlayOpenStore.beginTransaction).2).rollback).2).accounts 1 =
      some { id := 1, balance := 5 } :=
  ⟨rfl, rfl⟩

/-- `GetAccount` never touches the base map, the transaction flag or the
lifecycle flag; its only possible state effect is a copy staged into the
overlay. -/
theorem getAccount_frame (s : MemoryStorage) (id : Int) :
    (s.getAccount id).2.accounts = s.accounts ∧
    (s.getAccount id).2.inTx = s.inTx ∧
    (s.getAccount id).2.initialized = s.initialized := by
  unfold MemoryStorage.getAccount
  repeat' split
  all_goals exact ⟨rfl, rfl, rfl⟩

/-- With a transaction open, `CreateAccount` stages only into the overlay:
base map, transaction flag and lifecycle flag are untouched. -/
theorem createAccount_inTx_frame (s : MemoryStorage) (id ib : Int) (htx : s.inTx = true) :
    (s.createAccount id ib).2.accounts = s.accounts ∧
    (s.createAccount id ib).2.inTx = true ∧
    (s.createAccount id ib).2.initialized = s.initialized := by
  unfold MemoryStorage.createAccount
  repeat' split
  all_goals simp_all

/-- With a transaction open, `UpdateBalance` writes only into the overlay:
base map, transaction flag and lifecycle flag are untouched. -/
theorem updateBalance_inTx_frame (s : MemoryStorage) (id delta : Int) (htx : s.inTx = true) :
    (s.updateBalance id delta).2.accounts = s.accounts ∧
    (s.updateBalance id delta).2.inTx = true ∧
    (s.updateBalance id delta).2.initialized = s.initialized := by
  have hga := getAccount_frame s id
  unfold MemoryStorage.updateBalance
  split
  · exact ⟨rfl, htx, rfl⟩
  split
  next e s' heq =>
    have hs' : s' = (s.getAccount id).2 := by rw [heq]
    subst hs'
    have h1 : (s.getAccount id).2.inTx = true := by rw [hga.2.1]; exact htx
    split
    · have hca := createAccount_inTx_frame (s.getAccount id).2 id delta h1
      exact ⟨hca.1.trans hga.1, hca.2.1, hca.2.2.trans hga.2.2⟩
    · exact ⟨hga.1, h1, hga.2.2⟩
  next acc s' heq =>
    have hs' : s' = (s.getAccount id).2 := by rw [heq]
    subst hs'
    have h1 : (s.getAccount id).2.inTx = true := by rw [hga.2.1]; exact htx
    by_cases hnb : acc.balance + delta < 0
    · simp [hnb, hga.1, h1, hga.2.2]
    · simp [hnb, h1, hga.1, hga.2.2]

/-- One `UpdateBalance`/`CreateAccount` call inside an open transaction
leaves base map, transaction flag and lifecycle flag unchanged. -/
theorem applyOp_write_inTx_frame (s : MemoryStorage) (op : StoreOp)
    (htx : s.inTx = true) (hw : op.isWrite = true) :
    (s.applyOp op).accounts = s.accounts ∧ (s.applyOp op).inTx = true ∧
    (s.applyOp op).initialized = s.initialized := by
  cases op with
  | updateBalance id delta => exact updateBalance_inTx_frame s id delta htx
  | createAccount id ib => exact createAccount_inTx_frame s id ib htx
  | _ => simp [StoreOp.isWrite] at hw

/-- A sequence of `UpdateBalance`/`CreateAccount` calls inside an open
transaction leaves base map, transaction flag and lifecycle flag unchanged. -/
theorem applyOps_write_inTx_frame (ops : List StoreOp) : ∀ (s : MemoryStorage),
    s.inTx = true → (∀ op ∈ ops, op.isWrite = true) →
    (s.applyOps ops).accounts = s.accounts ∧ (s.applyOps ops).inTx = true ∧
    (s.applyOps ops).initialized = s.initialized := by
  induction ops with
  | nil => exact fun s htx _ => ⟨rfl, htx, rfl⟩
  | cons op rest ih =>
    intro s htx hops
    have h1 := applyOp_write_inTx_frame s op htx (hops op (by simp))
    have h2 := ih (s.applyOp op) h1.2.1 (fun o ho => hops o (by simp [ho]))
    exact ⟨h2.1.trans h1.1, h2.2.1, h2.2.2.trans h1.2.2⟩

/-- C5 amended: on an initialized store with no transaction already open,
any sequence of `UpdateBalance`/`CreateAccount` calls performed after
`BeginTransaction` followed by `Rollback` succeeds and leaves the base
account map value-for-value identical to its state before `BeginTransaction`.
(When a transaction was already open, `BeginTransaction`'s implicit fold
mutates the base first, so the pre-`BeginTransaction` base is not restored —
see the counterexample.) -/
theorem rollback_restores_base (s : MemoryStorage) (ops : List StoreOp)
    (hinit : s.initialized = true) (htx : s.inTx = false)
    (hops : ∀ op ∈ ops, op.isWrite = true) :
    ((((s.beginTransaction).2).applyOps ops).rollback).1 = .ok () ∧
    ∀ id, ((((s.beginTransaction).2).applyOps ops).rollback).2.accounts id = s.accounts id := by
  have hb : (s.beginTransaction).2 =
      { s with accounts := s.accounts, txAccounts := AccountMap.empty, inTx := true } := by
    simp [MemoryStorage.beginTransaction, hinit, htx]
  have hfr := applyOps_write_inTx_frame ops (s.beginTransaction).2 (by rw [hb]) hops
  have hacc : (((s.beginTransaction).2).applyOps ops).accounts = s.accounts := by
    rw [hfr.1, hb]
  have hini : (((s.beginTransaction).2).applyOps ops).initialized = true := by
    rw [hfr.2.2, hb]; exact hinit
  constructor
  · simp [MemoryStorage.rollback, hini, hfr.2.1]
  · intro id
    simp [MemoryStorage.rollback, hini, hfr.2.1, hacc]

/-- Witness for C5's amended theorem: a create and an update inside the
transaction, rolled back on the initialized empty store. -/
theorem rollback_restores_base_witness :
    MemoryStorage.initialEmpty.initialized = true ∧
    MemoryStorage.initialEmpty.inTx = false ∧
    (∀ op ∈ ([StoreOp.createAccount 1 5, StoreOp.updateBalance 1 2] : List StoreOp),
      op.isWrite = true) ∧
    (((((MemoryStorage.initialEmpty.beginTransaction).2).applyOps
        [StoreOp.createAccount 1 5, StoreOp.updateBalance 1 2]).rollback).1 = .ok () ∧
     ∀ id, ((((MemoryStorage.initialEmpty.beginTransaction).2).applyOps
        [StoreOp.createAccount 1 5, StoreOp.updateBalance 1 2]).rollback).2.accounts id =
       MemoryStorage.initialEmpty.accounts id) :=
  ⟨rfl, rfl, by decide,
   rollback_restores_base MemoryStorage.initialEmpty
     [StoreOp.createAccount 1 5, StoreOp.updateBalance 1 2] rfl rfl (by decide)⟩

/-- C4 amended: on an initialized store, `CreateAccount(id, ib)` fails with
`AccountAlreadyExists` exactly when the id is in the overlay (if a
transaction is open) or in the base (if none is open) — an id present only in
the base while a transaction is open is not rejected — and on failure the
store is unchanged. -/
theorem createAccount_already_exists_iff (s : MemoryStorage) (id ib : Int)
    (hinit : s.initialized = true) :
    ((s.createAccount id ib).1 = .error .accountAlreadyExists ↔
      (if s.inTx = true then (s.txAccounts id).isSome = true
       else (s.accounts id).isSome = true)) ∧
    ((s.createAccount id ib).1 = .error .accountAlreadyExists →
      (s.createAccount id ib).2 = s) := by
  cases htx : s.inTx <;> cases hov : s.txAccounts id <;> cases hb : s.accounts id <;>
    simp [MemoryStorage.createAccount, hinit, htx, hov, hb]

/-- Witness for C4's amended theorem: creating an id that already sits in the
base of a store with no open transaction fails and changes nothing. -/
theorem createAccount_already_exists_iff_witness :
    ((MemoryStorage.initialEmpty.createAccount 1 100).2).initialized = true ∧
    ((((MemoryStorage.initialEmpty.createAccount 1 100).2).createAccount 1 7).1 =
        .error .accountAlreadyExists ↔
      (if ((MemoryStorage.initialEmpty.createAccount 1 100).2).inTx = true
       then (((MemoryStorage.initialEmpty.createAccount 1 100).2).txAccounts 1).isSome = true
       else (((MemoryStorage.initialEmpty.createAccount 1 100).2).accounts 1).isSome = true)) ∧
    ((((MemoryStorage.initialEmpty.createAccount 1 100).2).createAccount 1 7).1 =
        .error .accountAlreadyExists →
      (((MemoryStorage.initialEmpty.createAccount 1 100).2).createAccount 1 7).2 =
        (MemoryStorage.initialEmpty.createAccount 1 100).2) :=
  ⟨rfl, (createAccount_already_exists_iff (MemoryStorage.initialEmpty.createAccount 1 100).2
     1 7 rfl).1, (createAccount_already_exists_iff
     (MemoryStorage.initialEmpty.createAccount 1 100).2 1 7 rfl).2⟩

end Storage

namespace Storage

/-- The empty account map holds no negative balance. -/
theorem nonNeg_empty_map : AccountMap.NonNeg AccountMap.empty := by
  intro id acc h
  simp [AccountMap.empty] at h

/-- Updating a non-negative map with a non-negative account keeps it
non-negative. -/
theorem nonNeg_set_map {m : AccountMap} (hm : m.NonNeg) {a : Account}
    (ha : 0 ≤ a.balance) (i : Int) : (m.set i a).NonNeg := by
  intro id acc h
  unfold AccountMap.set at h
  split at h
  · injection h with h2
    subst h2
    exact ha
  · exact hm id acc h

/-- Folding a non-negative overlay into a non-negative base keeps every entry
non-negative. -/
theorem nonNeg_merge_map {m₁ m₂ : AccountMap} (h₁ : m₁.NonNeg) (h₂ : m₂.NonNeg) :
    (AccountMap.merge m₁ m₂).NonNeg := by
  intro id acc h
  unfold AccountMap.merge at h
  split at h
  next a heq =>
    injection h with h2
    subst h2
    exact h₂ id a heq
  next => exact h₁ id acc h

/-- `GetAccount` preserves the non-negativity invariant (the staged copy has
the base entry's balance), and any account it returns has a non-negative
balance. -/
theorem nonNeg_getAccount (s : MemoryStorage) (id : Int) (hs : s.NonNeg) :
    (s.getAccount id).2.NonNeg ∧ ∀ acc, (s.getAccount id).1 = .ok acc → 0 ≤ acc.balance := by
  obtain ⟨hb, ho⟩ := hs
  unfold MemoryStorage.getAccount
  split
  · exact ⟨⟨hb, ho⟩, fun acc h => by simp at h⟩
  split
  · split
    next acc heq =>
      refine ⟨⟨hb, ho⟩, fun a h => ?_⟩
      injection h with h2
      subst h2
      exact ho id acc heq
    next heq =>
      split
      next acc heq2 =>
        refine ⟨⟨hb, nonNeg_set_map ho (hb id acc heq2) id⟩, fun a h => ?_⟩
        injection h with h2
        subst h2
        exact hb id acc heq2
      next heq2 => exact ⟨⟨hb, ho⟩, fun a h => by simp at h⟩
  · split
    next acc heq =>
      refine ⟨⟨hb, ho⟩, fun a h => ?_⟩
      injection h with h2
      subst h2
      exact hb id acc heq
    next heq => exact ⟨⟨hb, ho⟩, fun a h => by simp at h⟩

/-- `CreateAccount` with a non-negative initial balance preserves the
non-negativity invariant. -/
theorem nonNeg_createAccount (s : MemoryStorage) (id ib : Int) (hs : s.NonNeg)
    (hib : 0 ≤ ib) : (s.createAccount id ib).2.NonNeg := by
  obtain ⟨hb, ho⟩ := hs
  unfold MemoryStorage.createAccount
  repeat' split
  all_goals
    first
    | exact ⟨hb, ho⟩
    | exact ⟨hb, nonNeg_set_map ho hib id⟩
    | exact ⟨nonNeg_set_map hb hib id, ho⟩

/-- `UpdateBalance` preserves the non-negativity invariant: the written
balance passed the `newBalance < 0` guard, and auto-vivification only runs
with a positive delta. -/
theorem nonNeg_updateBalance (s : MemoryStorage) (id delta : Int) (hs : s.NonNeg) :
    (s.updateBalance id delta).2.NonNeg := by
  have hga := nonNeg_getAccount s id hs
  unfold MemoryStorage.updateBalance
  split
  · exact hs
  split
  next e s' heq =>
    have hs' : s' = (s.getAccount id).2 := by rw [heq]
    subst hs'
    split
    next hcond => exact nonNeg_createAccount _ id delta hga.1 (le_of_lt hcond.2)
    next => exact hga.1
  next acc s' heq =>
    have hs' : s' = (s.getAccount id).2 := by rw [heq]
    subst hs'
    have hacc : 0 ≤ acc.balance := hga.2 acc (by rw [heq])
    obtain ⟨hb2, ho2⟩ := hga.1
    by_cases hnb : acc.balance + delta < 0
    · simpa [hnb] using ⟨hb2, ho2⟩
    · have hnew : 0 ≤ acc.balance + delta := not_lt.1 hnb
      by_cases htx2 : (s.getAccount id).2.inTx = true
      · simpa [hnb, htx2] using ⟨hb2, nonNeg_set_map ho2 hnew id⟩
      · simpa [hnb, htx2] using ⟨nonNeg_set_map hb2 hnew id, ho2⟩

/-- `GetBalance` preserves the non-negativity invariant and any balance it
returns is non-negative. -/
theorem nonNeg_getBalance (s : MemoryStorage) (id : Int) (hs : s.NonNeg) :
    ∀ b, (s.getBalance id).1 = .ok b → 0 ≤ b := by
  intro b h
  unfold MemoryStorage.getBalance at h
  split at h
  next e s' heq => simp at h
  next acc s' heq =>
    injection h with h2
    subst h2
    exact (nonNeg_getAccount s id hs).2 acc (by rw [heq])

/-- Every account enumerated by `GetAllAccounts` of an invariant-satisfying
store has a non-negative balance. -/
theorem nonNeg_getAllAccounts (s : MemoryStorage) (hs : s.NonNeg) :
    ∀ m, (s.getAllAccounts).1 = .ok m → ∀ id acc, m id = some acc → 0 ≤ acc.balance := by
  intro m h id acc hma
  unfold MemoryStorage.getAllAccounts at h
  split at h
  · simp at h
  split at h
  · injection h with h2
    subst h2
    exact nonNeg_merge_map hs.1 hs.2 id acc hma
  · injection h with h2
    subst h2
    exact hs.1 id acc hma

/-- Every contract call that seeds only non-negative balances preserves the
non-negativity invariant. -/
theorem nonNeg_applyOp (s : MemoryStorage) (op : StoreOp) (hs : s.NonNeg)
    (hop : op.createNonNeg = true) : (s.applyOp op).NonNeg := by
  obtain ⟨hb, ho⟩ := hs
  cases op with
  | initStore =>
    show (s.initStore).2.NonNeg
    unfold MemoryStorage.initStore
    split
    · exact ⟨hb, ho⟩
    · exact ⟨nonNeg_empty_map, nonNeg_empty_map⟩
  | closeStore =>
    show (s.closeStore).2.NonNeg
    unfold MemoryStorage.closeStore
    split
    · exact ⟨hb, ho⟩
    · exact ⟨nonNeg_empty_map, nonNeg_empty_map⟩
  | getAccount id =>
    show (s.getAccount id).2.NonNeg
    exact (nonNeg_getAccount s id ⟨hb, ho⟩).1
  | accountExists id =>
    show (s.accountExists id).2.NonNeg
    unfold MemoryStorage.accountExists
    repeat' split
    all_goals exact ⟨hb, ho⟩
  | updateBalance id delta =>
    show (s.updateBalance id delta).2.NonNeg
    exact nonNeg_updateBalance s id delta ⟨hb, ho⟩
  | createAccount id ib =>
    show (s.createAccount id ib).2.NonNeg
    exact nonNeg_createAccount s id ib ⟨hb, ho⟩ (of_decide_eq_true hop)
  | commit =>
    show (s.commit).2.NonNeg
    unfold MemoryStorage.commit
    repeat' split
    all_goals first
    | exact ⟨hb, ho⟩
    | exact ⟨nonNeg_merge_map hb ho, nonNeg_empty_map⟩
  | rollback =>
    show (s.rollback).2.NonNeg
    unfold MemoryStorage.rollback
    repeat' split
    all_goals first
    | exact ⟨hb, ho⟩
    | exact ⟨hb, nonNeg_empty_map⟩
  | beginTransaction =>
    show (s.beginTransaction).2.NonNeg
    unfold MemoryStorage.beginTransaction
    repeat' split
    all_goals first
    | exact ⟨hb, ho⟩
    | exact ⟨nonNeg_merge_map hb ho, nonNeg_empty_map⟩
    | exact ⟨hb, nonNeg_empty_map⟩
  | getBalance id =>
    show (s.getBalance id).2.NonNeg
    unfold MemoryStorage.getBalance
    split
    next e s' heq =>
      have : s' = (s.getAccount id).2 := by rw [heq]
      subst this
      exact (nonNeg_getAccount s id ⟨hb, ho⟩).1
    next acc s' heq =>
      have : s' = (s.getAccount id).2 := by rw [heq]
      subst this
      exact (nonNeg_getAccount s id ⟨hb, ho⟩).1
  | getAllAccounts =>
    show (s.getAllAccounts).2.NonNeg
    unfold MemoryStorage.getAllAccounts
    repeat' split
    all_goals exact ⟨hb, ho⟩

/-- A sequence of contract calls seeding only non-negative balances preserves
the non-negativity invariant. -/
theorem nonNeg_applyOps (ops : List StoreOp) : ∀ (s : MemoryStorage), s.NonNeg →
    (∀ op ∈ ops, op.createNonNeg = true) → (s.applyOps ops).NonNeg := by
  induction ops with
  | nil => exact fun _ hs _ => hs
  | cons op rest ih =>
    intro s hs hops
    exact ih _ (nonNeg_applyOp s op hs (hops op (by simp)))
      (fun o ho => hops o (by simp [ho]))

/-- `GetAccount`'s copy-on-read does not change the overlay-aware view at any
id: the staged copy carries the base entry's value. -/
theorem getAccount_view_eq (s : MemoryStorage) (id j : Int) :
    (s.getAccount id).2.view j = s.view j := by
  unfold MemoryStorage.getAccount
  split
  · rfl
  split
  next htx =>
    split
    · rfl
    next heqov =>
      split
      next acc heqb =>
        by_cases hj : j = id
        · subst hj
          simp [MemoryStorage.view, AccountMap.set, htx, heqov, heqb]
        · simp [MemoryStorage.view, AccountMap.set, htx, hj]
      next => rfl
  next => split <;> rfl

/-- `CreateAccount` never reports `InsufficientBalance`. -/
theorem createAccount_not_insufficient (s : MemoryStorage) (id ib : Int) :
    (s.createAccount id ib).1 ≠ .error .insufficientBalance := by
  unfold MemoryStorage.createAccount
  repeat' split
  all_goals simp

/-- An `UpdateBalance` that fails with `InsufficientBalance` leaves the
overlay-aware view unchanged at every id. -/
theorem updateBalance_insufficient_view_eq (s : MemoryStorage) (id delta : Int) :
    (s.updateBalance id delta).1 = .error .insufficientBalance →
    ∀ j, (s.updateBalance id delta).2.view j = s.view j := by
  unfold MemoryStorage.updateBalance
  split
  · intro h
    simp at h
  split
  next e s' heq =>
    have hs' : s' = (s.getAccount id).2 := by rw [heq]
    subst hs'
    split
    · intro h
      exact absurd h (createAccount_not_insufficient _ id delta)
    · intro h j
      exact getAccount_view_eq s id j
  next acc s' heq =>
    have hs' : s' = (s.getAccount id).2 := by rw [heq]
    subst hs'
    intro h j
    by_cases hnb : acc.balance + delta < 0
    · simpa [hnb] using getAccount_view_eq s id j
    · by_cases htx2 : (s.getAccount id).2.inTx = true <;> simp [hnb, htx2] at h

/-- C3 amended: starting from the initialized empty store, over every
sequence of contract calls whose `CreateAccount` calls seed non-negative
balances, every balance observable through `GetAccount`, `GetBalance` or
`GetAllAccounts` is non-negative, and an `UpdateBalance` that would drive a
balance below zero fails with the overlay-aware view unchanged. (Without the
seeding restriction the property fails: the contract admits negative initial
balances — see the counterexample.) -/
theorem store_balances_nonneg (ops : List Storage.StoreOp)
    (h : ∀ op ∈ ops, op.createNonNeg = true) :
    (∀ id acc, ((MemoryStorage.initialEmpty.applyOps ops).getAccount id).1 = .ok acc →
       0 ≤ acc.balance) ∧
    (∀ id b, ((MemoryStorage.initialEmpty.applyOps ops).getBalance id).1 = .ok b → 0 ≤ b) ∧
    (∀ m, ((MemoryStorage.initialEmpty.applyOps ops).getAllAccounts).1 = .ok m →
       ∀ id acc, m id = some acc → 0 ≤ acc.balance) ∧
    (∀ id delta,
       ((MemoryStorage.initialEmpty.applyOps ops).updateBalance id delta).1 =
         .error .insufficientBalance →
       ∀ j, ((MemoryStorage.initialEmpty.applyOps ops).updateBalance id delta).2.view j =
         (MemoryStorage.initialEmpty.applyOps ops).view j) := by
  have h0 : MemoryStorage.initialEmpty.NonNeg := ⟨nonNeg_empty_map, nonNeg_empty_map⟩
  have hn := nonNeg_applyOps ops MemoryStorage.initialEmpty h0 h
  refine ⟨?_, ?_, ?_, ?_⟩
  · exact fun id acc hga => (nonNeg_getAccount _ id hn).2 acc hga
  · exact fun id b hgb => nonNeg_getBalance _ id hn b hgb
  · exact fun m hm id acc hma => nonNeg_getAllAccounts _ hn m hm id acc hma
  · exact fun id delta hub j => updateBalance_insufficient_view_eq _ id delta hub j

/-- Witness for C3's amended theorem: a non-negative create followed by an
overdrawing update on the initialized empty store. -/
theorem store_balances_nonneg_witness :
    (∀ op ∈ ([StoreOp.createAccount 1 5, StoreOp.updateBalance 1 (-3)] : List StoreOp),
       op.createNonNeg = true) ∧
    ((∀ id acc, ((MemoryStorage.initialEmpty.applyOps
         [StoreOp.createAccount 1 5, StoreOp.updateBalance 1 (-3)]).getAccount id).1 =
           .ok acc → 0 ≤ acc.balance) ∧
     (∀ id b, ((MemoryStorage.initialEmpty.applyOps
         [StoreOp.createAccount 1 5, StoreOp.updateBalance 1 (-3)]).getBalance id).1 =
           .ok b → 0 ≤ b) ∧
     (∀ m, ((MemoryStorage.initialEmpty.applyOps
         [StoreOp.createAccount 1 5, StoreOp.updateBalance 1 (-3)]).getAllAccounts).1 =
           .ok m → ∀ id acc, m id = some acc → 0 ≤ acc.balance) ∧
     (∀ id delta, ((MemoryStorage.initialEmpty.applyOps
         [StoreOp.createAccount 1 5, StoreOp.updateBalance 1 (-3)]).updateBalance id delta).1 =
           .error .insufficientBalance →
       ∀ j, ((MemoryStorage.initialEmpty.applyOps
         [StoreOp.createAccount 1 5, StoreOp.updateBalance 1 (-3)]).updateBalance id delta).2.view j =
         (MemoryStorage.initialEmpty.applyOps
         [StoreOp.createAccount 1 5, StoreOp.updateBalance 1 (-3)]).view j)) :=
  ⟨by decide, store_balances_nonneg
    [StoreOp.createAccount 1 5, StoreOp.updateBalance 1 (-3)] (by decide)⟩

end Storage

namespace App

/-- C10: a batch with an empty operations list fails basic validation with
the "transaction must contain at least one operation" error, is rejected by
`ValidateTransaction`, and `ProcessTransaction` rejects it before applying
anything, leaving the processor untouched. -/
theorem empty_batch_rejected (tp : TxProcessor) (verify : SigVerifier)
    (tx : Types.Transaction) (h : tx.operations = []) :
    tx.validate = .error .emptyTransaction ∧
    tp.validateTransaction verify tx = (.error .emptyTransaction, tp) ∧
    tp.processTransaction verify tx = (.error .emptyTransaction, tp) := by
  have hv : tx.validate = .error .emptyTransaction := by
    simp [Types.Transaction.validate, h]
  have hvt : tp.validateTransaction verify tx = (.error .emptyTransaction, tp) := by
    simp [TxProcessor.validateTransaction, hv]
  exact ⟨hv, hvt, by simp [TxProcessor.processTransaction, hvt]⟩

/-- Witness for C10 at the literally empty batch and the empty-state
processor. -/
theorem empty_batch_rejected_witness :
    ({ operations := [] } : Types.Transaction).operations = [] ∧
    (Types.Transaction.validate { operations := [] } = .error .emptyTransaction ∧
     emptyStateProcessor.validateTransaction acceptAllSigs { operations := [] } =
       (.error .emptyTransaction, emptyStateProcessor) ∧
     emptyStateProcessor.processTransaction acceptAllSigs { operations := [] } =
       (.error .emptyTransaction, emptyStateProcessor)) :=
  ⟨rfl, empty_batch_rejected emptyStateProcessor acceptAllSigs { operations := [] } rfl⟩

/-- C1: evaluating `ProcessTransaction` on the spec's rejection scenario
(account 1 at 100; batch [(1→2, 60), (1→2, 60)], all signatures valid): the
batch is reported failed at operation 1, but the first operation's effects
persist — account 1 is left at 40 and account 2 at 60, not at their pre-batch
values. Only the failing operation's own debit is ever reverted; there is no
store transaction and no rollback of earlier operations. -/
theorem processTransaction_midbatch_failure_keeps_partial_effects :
    (scenarioProcessor.processTransaction acceptAllSigs scenarioBatch).1 =
      .error (.debitFailed 1 (.stateInsufficientBalance 1 40 60)) ∧
    (scenarioProcessor.processTransaction acceptAllSigs scenarioBatch).2.state.accounts 1 =
      some { id := 1, balance := 40 } ∧
    (scenarioProcessor.processTransaction acceptAllSigs scenarioBatch).2.state.accounts 2 =
      some { id := 2, balance := 60 } ∧
    scenarioProcessor.state.accounts 1 = some { id := 1, balance := 100 } ∧
    scenarioProcessor.state.accounts 2 = none :=
  ⟨rfl, rfl, rfl, rfl, rfl⟩

/-- Counterexample to C2 as stated: validating one operation whose sender has
no account (with a registered key and an accepting signature oracle) creates
account 1 with balance 0 in the persisted state — validation alone mutates
the state via `State.GetAccount`'s create-on-read. -/
theorem validateOperation_creates_missing_sender_account :
    emptyStateProcessor.state.accounts 1 = none ∧
    (emptyStateProcessor.validateOperation acceptAllSigs
        { fromId := 1, toId := 2, amount := 5, signature := "sig" }).2.state.accounts 1 =
      some { id := 1, balance := 0 } :=
  ⟨rfl, rfl⟩

/-- On a present id, `State.GetAccount` returns the stored account and leaves
the state unchanged. -/
theorem getAccount_present (s : State) (id : Int) (acc : Account)
    (h : s.accounts id = some acc) :
    (s.getAccount id).1 = acc ∧ (s.getAccount id).2 = s := by
  unfold State.getAccount
  split
  next a heq =>
    rw [h] at heq
    injection heq with h2
    exact ⟨h2.symm, rfl⟩
  next heq => rw [h] at heq; cases heq

/-- On an absent id, `State.GetAccount` returns a fresh zero-balance account
and stores it. -/
theorem getAccount_absent (s : State) (id : Int) (h : s.accounts id = none) :
    (s.getAccount id).1 = { id := id, balance := 0 } ∧
    (s.getAccount id).2.accounts = s.accounts.set id { id := id, balance := 0 } := by
  unfold State.getAccount
  split
  next a heq => rw [h] at heq; cases heq
  next heq => exact ⟨rfl, rfl⟩

/-- `State.GetAccount` either leaves the state unchanged or adds exactly the
requested id with balance 0. -/
theorem getAccount_state_cases (s : State) (id : Int) :
    (s.getAccount id).2 = s ∨
    (s.accounts id = none ∧
     (s.getAccount id).2.accounts = s.accounts.set id { id := id, balance := 0 }) := by
  unfold State.getAccount
  split
  next a heq => exact .inl rfl
  next heq => exact .inr ⟨heq, rfl⟩

/-- A basic validation success forces a strictly positive amount. -/
theorem basic_validation_ok_amount (op : Types.Operation)
    (h : Types.validateOperation op = .ok ()) : 0 < op.amount := by
  unfold Types.validateOperation at h
  repeat' split at h
  all_goals try simp at h
  omega

/-- `ValidateOperation` never changes the registered keys, and its only
possible state effect is adding the sender's id with balance 0 when the
sender has no account. -/
theorem validateOperation_state_cases (tp : TxProcessor) (verify : SigVerifier)
    (op : Types.Operation) :
    (tp.validateOperation verify op).2.userKeys = tp.userKeys ∧
    ((tp.validateOperation verify op).2.state = tp.state ∨
      (tp.state.accounts op.fromId = none ∧
       (tp.validateOperation verify op).2.state.accounts =
         tp.state.accounts.set op.fromId { id := op.fromId, balance := 0 })) := by
  unfold TxProcessor.validateOperation
  split
  · exact ⟨rfl, .inl rfl⟩
  split
  · exact ⟨rfl, .inl rfl⟩
  next pk heqk =>
    split
    · exact ⟨rfl, .inl rfl⟩
    · exact ⟨rfl, .inl rfl⟩
    · split
      next account s₁ heq =>
        have hs₁ : s₁ = (tp.state.getAccount op.fromId).2 := by rw [heq]
        subst hs₁
        rcases getAccount_state_cases tp.state op.fromId with hcase | ⟨hnone, hset⟩
        · split
          · exact ⟨rfl, .inl hcase⟩
          · exact ⟨rfl, .inl hcase⟩
        · split
          · exact ⟨rfl, .inr ⟨hnone, hset⟩⟩
          · exact ⟨rfl, .inr ⟨hnone, hset⟩⟩

/-- A successful `ValidateOperation` leaves the processor exactly unchanged:
when the sender had to be created, its zero balance cannot cover the
operation's (positive) amount, so success implies the sender already
existed. -/
theorem validateOperation_ok_state (tp : TxProcessor) (verify : SigVerifier)
    (op : Types.Operation) :
    (tp.validateOperation verify op).1 = .ok () →
    (tp.validateOperation verify op).2 = tp := by
  unfold TxProcessor.validateOperation
  split
  next e heqb => intro h; simp at h
  next heqb =>
    split
    · intro h; simp at h
    next pk heqk =>
      split
      · intro h; simp at h
      · intro h; simp at h
      · split
        next account s₁ heq =>
          have hs₁ : s₁ = (tp.state.getAccount op.fromId).2 := by rw [heq]
          subst hs₁
          split
          · intro h; simp at h
          next hlt =>
            intro _
            rcases getAccount_state_cases tp.state op.fromId with hcase | ⟨hnone, _⟩
            · rw [hcase]
            · exfalso
              have h1 : (tp.state.getAccount op.fromId).1 = account := by rw [heq]
              have h2 := (getAccount_absent tp.state op.fromId hnone).1
              have haccount : account = { id := op.fromId, balance := 0 } :=
                h1.symm.trans h2
              have hamount := basic_validation_ok_amount op heqb
              rw [haccount] at hlt
              exact hlt hamount

/-- The validation loop never changes the registered keys, and its only
possible state effect is adding one zero-balance account for an absent
sender id. -/
theorem validateOpsLoop_state_cases (verify : SigVerifier) (ops : List Types.Operation) :
    ∀ (tp : TxProcessor) (i : Nat),
    (validateOpsLoop verify tp i ops).2.userKeys = tp.userKeys ∧
    ((validateOpsLoop verify tp i ops).2.state = tp.state ∨
      ∃ uid, tp.state.accounts uid = none ∧
        (validateOpsLoop verify tp i ops).2.state.accounts =
          tp.state.accounts.set uid { id := uid, balance := 0 }) := by
  induction ops with
  | nil => exact fun tp i => ⟨rfl, .inl rfl⟩
  | cons op rest ih =>
    intro tp i
    unfold validateOpsLoop
    split
    next e heq =>
      have hcases := validateOperation_state_cases tp verify op
      rcases hcases.2 with h1 | ⟨hnone, hset⟩
      · exact ⟨hcases.1, .inl h1⟩
      · exact ⟨hcases.1, .inr ⟨op.fromId, hnone, hset⟩⟩
    next u heq =>
      cases u
      have hok := validateOperation_ok_state tp verify op heq
      rw [hok]
      exact ih tp (i + 1)

/-- C2 amended: `ValidateTransaction` (the speculative pre-validation entry
point) never changes the registered keys and leaves every account that
existed before validation unchanged; its only possible effect on persisted
state is creating one zero-balance account for an absent sender id (via
`State.GetAccount`'s create-on-read) — so validation is not entirely
mutation-free, as the counterexample shows. -/
theorem validateTransaction_state_effect (tp : TxProcessor) (verify : SigVerifier)
    (tx : Types.Transaction) :
    (tp.validateTransaction verify tx).2.userKeys = tp.userKeys ∧
    (∀ id acc, tp.state.accounts id = some acc →
       (tp.validateTransaction verify tx).2.state.accounts id = some acc) ∧
    ((tp.validateTransaction verify tx).2.state = tp.state ∨
      ∃ uid, tp.state.accounts uid = none ∧
        (tp.validateTransaction verify tx).2.state.accounts =
          tp.state.accounts.set uid { id := uid, balance := 0 }) := by
  unfold TxProcessor.validateTransaction
  split
  · exact ⟨rfl, fun id acc h => h, .inl rfl⟩
  · have hl := validateOpsLoop_state_cases verify tx.operations tp 0
    refine ⟨hl.1, ?_, hl.2⟩
    intro id acc h
    rcases hl.2 with h1 | ⟨uid, hnone, hset⟩
    · rw [h1]; exact h
    · rw [hset]
      unfold AccountMap.set
      have hne : id ≠ uid := fun he => by rw [he, hnone] at h; cases h
      simp only [hne, if_false]
      exact h

end App

end BatchBench
